import Mathlib

/-!
Verification of the Dutch-auction settlement core of the `anchor-escrow-2025`
TicketFair project.

Part 1 embeds the two TypeScript evaluation sites of the Dutch-auction price
formula (`src/ticketfair-api.ts` and the test helpers) together with the
specification's own price formula.

The TypeScript sources compute the in-window price in IEEE-754 binary64
(`Number(...)` conversions, double multiply/divide/subtract, `Math.floor`).
Two embeddings are given:

* `TicketfairApi.calculateCurrentPrice` and `TestHelpers.calculateCurrentPrice`
  replace the double arithmetic by its exact real value.  They coincide with
  the sources exactly when every intermediate double is exactly representable,
  and they are evaluated only at such inputs (small magnitudes, power-of-two
  durations).
* `TicketfairApi.calculateCurrentPriceFP` models the double arithmetic
  operation by operation: values are dyadics `m·2^e`, every conversion and
  every arithmetic result is rounded to 53 significant bits with
  round-to-nearest, ties-to-even (`Binary64.rnd`), and division is correctly
  rounded.  Binary64 exponent overflow/underflow and non-finite values are
  outside the modelled range; no quantity in this development approaches
  them.  This model exhibits the source's behaviour on inputs at and above
  `2^53`, where the `Number(...)` conversions already lose integers.

Part 2 models the on-chain event/bid/ticket state machine.  The Anchor (Rust)
program itself is not part of this source tree — only its generated TypeScript
client, helpers and tests are — so those operations are modelled from the
specification, as marked on each definition.

Part 3 embeds the deterministic account-address derivation performed by
`createAndActivateEvent` / `placeBid` in `src/ticketfair-api.ts`.
-/

namespace AnchorEscrow

/-- The event fields consumed by `calculateCurrentPrice` in
`src/ticketfair-api.ts` (a `bigint` record in the source). -/
structure EventPricing where
  startPrice : Int
  endPrice : Int
  auctionStartTime : Int
  auctionEndTime : Int
deriving DecidableEq, Repr

namespace TicketfairApi

/-- Translation of `calculateCurrentPrice` from `src/ticketfair-api.ts`
(lines 7–27), with the double arithmetic replaced by its exact value.  The
source returns `startPrice` for `now ≤ auctionStartTime`, `endPrice` for
`now ≥ auctionEndTime`, and otherwise
`BigInt(Math.floor(startPrice - (priceDiff * elapsed) / duration))`:
the floor is applied to the whole expression.  The floor of the exact value
`startPrice - priceDiff*elapsed/duration` equals the floor division of
`startPrice*duration - priceDiff*elapsed` by `duration`.  This exact form
agrees with the source only where every intermediate double is exactly
representable, and is evaluated only at such inputs;
`calculateCurrentPriceFP` below models the double arithmetic itself. -/
def calculateCurrentPrice (event : EventPricing) (now : Int) : Int :=
  if now ≤ event.auctionStartTime then
    event.startPrice
  else if event.auctionEndTime ≤ now then
    event.endPrice
  else
    let elapsed := now - event.auctionStartTime
    let duration := event.auctionEndTime - event.auctionStartTime
    let priceDiff := event.startPrice - event.endPrice
    Int.fdiv (event.startPrice * duration - priceDiff * elapsed) duration

end TicketfairApi

namespace TestHelpers

/-- Translation of `calculateCurrentPrice` from the test helpers
(`tests/ticketfair.test-helpers.ts`, lines 9–28), with the double arithmetic
replaced by its exact value (see the remark on
`TicketfairApi.calculateCurrentPrice`).  Identical branch structure, but the
in-window value is
`BigInt(startPrice - Math.floor((priceDiff * elapsed) / duration))`:
the floor is applied only to the subtracted term. -/
def calculateCurrentPrice (event : EventPricing) (now : Int) : Int :=
  if now ≤ event.auctionStartTime then
    event.startPrice
  else if event.auctionEndTime ≤ now then
    event.endPrice
  else
    let elapsed := now - event.auctionStartTime
    let duration := event.auctionEndTime - event.auctionStartTime
    let priceDiff := event.startPrice - event.endPrice
    event.startPrice - Int.fdiv (priceDiff * elapsed) duration

end TestHelpers

namespace Binary64

/-- A dyadic number `m · 2^e`.  Every finite binary64 value is of this form;
the arithmetic below rounds back to 53 significant bits after each operation,
exactly as IEEE-754 binary64 does (round to nearest, ties to even).
Exponent overflow/underflow is outside the modelled range. -/
structure Dyadic where
  m : Int
  e : Int
deriving DecidableEq, Repr

/-- `2^k` as an integer, by structural recursion (kernel-reducible). -/
def twoPow : Nat → Int
  | 0 => 1
  | k + 1 => 2 * twoPow k

/-- Fuel-bounded search, for `n ≥ d > 0`: starting from `(t, 2^t)` with
`d·2^t ≤ n`, climb to the `t` with `d·2^t ≤ n < d·2^(t+1)`, i.e.
`t = ⌊log₂ (n/d)⌋`.  The fuel far exceeds every binary64 exponent. -/
def searchUp : Nat → Int → Int → Nat × Int → Nat × Int
  | 0, _, _, acc => acc
  | fuel + 1, n, d, (t, p) =>
      if n < d * (2 * p) then (t, p) else searchUp fuel n d (t + 1, 2 * p)

/-- Fuel-bounded search, for `0 < n < d`: the smallest `s` with
`n·2^s ≥ d`, so that `⌊log₂ (n/d)⌋ = -s`. -/
def searchLow : Nat → Int → Int → Nat × Int → Nat × Int
  | 0, _, _, acc => acc
  | fuel + 1, n, d, (s, p) =>
      if d ≤ n * p then (s, p) else searchLow fuel n d (s + 1, 2 * p)

/-- Round the fraction `p/q` (with `p, q > 0`) to the nearest integer, ties
to even — the IEEE-754 default rounding applied to a scaled significand. -/
def rne (p q : Int) : Int :=
  let m := p / q
  let r := p % q
  if 2 * r < q then m
  else if q < 2 * r then m + 1
  else if m % 2 = 0 then m else m + 1

/-- Round the positive rational `(n/d) · 2^f` (with `n, d > 0`) to 53
significant bits: locate `t = ⌊log₂ (n/d)⌋`, scale the fraction so its value
lies in `[2^52, 2^53)`, and round the significand to nearest, ties to even. -/
def rndRat (n d : Int) (f : Int) : Dyadic :=
  if d ≤ n then
    let t := (searchUp 1100 n d (0, 1)).1
    if 52 ≤ t then
      ⟨rne n (d * twoPow (t - 52)), f + (t - 52 : Nat)⟩
    else
      ⟨rne (n * twoPow (52 - t)) d, f - (52 - t : Nat)⟩
  else
    let s := (searchLow 1200 n d (0, 1)).1
    ⟨rne (n * twoPow (s + 52)) d, f - (s + 52 : Nat)⟩

/-- Round a dyadic (an exact sum, difference or product of binary64 values)
to the nearest binary64 value. -/
def rnd (x : Dyadic) : Dyadic :=
  if x.m = 0 then ⟨0, 0⟩
  else if 0 < x.m then rndRat x.m 1 x.e
  else
    let y := rndRat (-x.m) 1 x.e
    ⟨-y.m, y.e⟩

/-- The binary64 value of an integer: the JS `Number(bigintValue)`
conversion, which rounds integers of magnitude above `2^53`. -/
def ofInt (n : Int) : Dyadic :=
  rnd ⟨n, 0⟩

/-- Exact sum of two dyadics, by aligning exponents. -/
def addExact (a b : Dyadic) : Dyadic :=
  if b.e ≤ a.e then ⟨a.m * twoPow (a.e - b.e).toNat + b.m, b.e⟩
  else ⟨a.m + b.m * twoPow (b.e - a.e).toNat, a.e⟩

/-- Binary64 addition: the exact sum, rounded. -/
def fadd (a b : Dyadic) : Dyadic :=
  rnd (addExact a b)

/-- Binary64 subtraction: the exact difference, rounded. -/
def fsub (a b : Dyadic) : Dyadic :=
  fadd a ⟨-b.m, b.e⟩

/-- Binary64 multiplication: the exact product, rounded. -/
def fmul (a b : Dyadic) : Dyadic :=
  rnd ⟨a.m * b.m, a.e + b.e⟩

/-- Binary64 division, correctly rounded.  Division by zero (a non-finite
result in JS) is outside the modelled range and never arises at the
evaluated inputs. -/
def fdiv (a b : Dyadic) : Dyadic :=
  if b.m = 0 then ⟨0, 0⟩
  else if a.m = 0 then ⟨0, 0⟩
  else
    let y := rndRat a.m.natAbs b.m.natAbs (a.e - b.e)
    if 0 < a.m * b.m then y else ⟨-y.m, y.e⟩

/-- The `<=` comparison on binary64 values (exact on dyadics). -/
def dle (a b : Dyadic) : Bool :=
  if b.e ≤ a.e then
    if a.m * twoPow (a.e - b.e).toNat ≤ b.m then true else false
  else
    if a.m ≤ b.m * twoPow (b.e - a.e).toNat then true else false

/-- `Math.floor` of a binary64 value. -/
def dfloor (x : Dyadic) : Int :=
  if 0 ≤ x.e then x.m * twoPow x.e.toNat
  else Int.fdiv x.m (twoPow (-x.e).toNat)

end Binary64

/-- Translation of `calculateCurrentPrice` from `src/ticketfair-api.ts`
(lines 7–27) with the IEEE-754 binary64 arithmetic of the source modelled
operation by operation: each `Number(...)` conversion rounds
(`Binary64.ofInt`), each subtraction, multiplication and division rounds its
exact result to 53 bits, the branch comparisons compare double values, the
pre-window and post-window branches return the raw bigint fields, and the
in-window branch is
`BigInt(Math.floor(startPrice - (priceDiff * elapsed) / duration))`. -/
def TicketfairApi.calculateCurrentPriceFP (event : EventPricing) (now : Int) : Int :=
  let nowD := Binary64.ofInt now
  let startT := Binary64.ofInt event.auctionStartTime
  let endT := Binary64.ofInt event.auctionEndTime
  if Binary64.dle nowD startT then
    event.startPrice
  else if Binary64.dle endT nowD then
    event.endPrice
  else
    let startP := Binary64.ofInt event.startPrice
    let endP := Binary64.ofInt event.endPrice
    let elapsed := Binary64.fsub nowD startT
    let duration := Binary64.fsub endT startT
    let priceDiff := Binary64.fsub startP endP
    Binary64.dfloor
      (Binary64.fsub startP (Binary64.fdiv (Binary64.fmul priceDiff elapsed) duration))

/-- Modelled from the spec: the §4.1 price contract, in exact integer
arithmetic — `startPrice` before the window, `endPrice` after it, and inside
the window
`startPrice − floor((startPrice − endPrice) · (now − auctionStartTime) / (auctionEndTime − auctionStartTime))`. -/
def specCurrentPrice (event : EventPricing) (now : Int) : Int :=
  if now ≤ event.auctionStartTime then
    event.startPrice
  else if event.auctionEndTime ≤ now then
    event.endPrice
  else
    event.startPrice -
      Int.fdiv ((event.startPrice - event.endPrice) * (now - event.auctionStartTime))
        (event.auctionEndTime - event.auctionStartTime)

/-- Concrete event used to separate the two price computations: prices fall
from 10 to 0 over the four-second window `[0, 4]`. -/
def sepEvent : EventPricing :=
  { startPrice := 10, endPrice := 0, auctionStartTime := 0, auctionEndTime := 4 }

/-! ### Spec-modelled settlement core

The Anchor on-chain program (`programs/escrow/src/...`) is not part of this
source tree — only its generated TypeScript client, the client glue and the
tests are.  The definitions below are therefore modelled from the
specification (§3–§4.5), as noted on each one. -/

/-- Modelled from the spec: the Event status enum (§3),
`Created → Active → Finalized`. -/
inductive EventStatus where
  | Created
  | Active
  | Finalized
deriving DecidableEq, Repr

/-- Modelled from the spec: the Bid status enum (§3),
`Pending → TicketAwarded | Refunded`. -/
inductive BidStatus where
  | Pending
  | TicketAwarded
  | Refunded
deriving DecidableEq, Repr

/-- Modelled from the spec: the error taxonomy of §7. -/
inductive TfError where
  | InvalidAuctionWindow
  | InvalidPriceBounds
  | InvalidEventState
  | AuctionStillRunning
  | AuctionNotActive
  | AuctionNotStarted
  | AuctionEnded
  | BidNotAtCurrentPrice
  | DuplicateBid
  | InvalidBidState
  | EventSoldOut
  | WrongEvent
  | AlreadyRefunded
  | EventNotFinalized
deriving DecidableEq, Repr

/-- Modelled from the spec: the Event record of §3 (identities are abstract
naturals; the opaque `metadataUrl` is a string). -/
structure Event where
  organizer : Nat
  metadataUrl : String
  ticketSupply : Nat
  ticketsAwarded : Nat
  startPrice : Int
  endPrice : Int
  auctionStartTime : Int
  auctionEndTime : Int
  auctionClosePrice : Int
  status : EventStatus
deriving DecidableEq, Repr

/-- Modelled from the spec: the Bid record of §3; `event` is the address of
the event the bid escrows funds for. -/
structure Bid where
  bidder : Nat
  event : Nat
  amount : Int
  status : BidStatus
deriving DecidableEq, Repr

/-- Modelled from the spec: the Ticket record of §3. -/
structure Ticket where
  owner : Nat
  event : Nat
  assetReference : Nat
deriving DecidableEq, Repr

/-- The pricing view of a modelled event, feeding the §4.1 price contract. -/
def Event.pricing (ev : Event) : EventPricing :=
  { startPrice := ev.startPrice, endPrice := ev.endPrice,
    auctionStartTime := ev.auctionStartTime, auctionEndTime := ev.auctionEndTime }

/-- Modelled from the spec: `currentPrice(event, now)` of §4.1 over the full
event record, in exact integer arithmetic. -/
def currentPrice (ev : Event) (now : Int) : Int :=
  specCurrentPrice ev.pricing now

/-- Modelled from the spec: `placeBid` (§4.3).  `eventId` is the event's
address, and `hasExistingBid` reports whether a Bid record already exists for
this (event, bidder) pair — the deterministic bid addressing of §6 makes that
a lookup.  The checks are performed in the §4.3 order. -/
def placeBid (eventId : Nat) (ev : Event) (bidder : Nat) (amount : Int) (now : Int)
    (hasExistingBid : Bool) : Except TfError Bid :=
  if ev.status ≠ EventStatus.Active then
    Except.error TfError.AuctionNotActive
  else if now < ev.auctionStartTime then
    Except.error TfError.AuctionNotStarted
  else if ev.auctionEndTime ≤ now then
    Except.error TfError.AuctionEnded
  else if amount ≠ currentPrice ev now then
    Except.error TfError.BidNotAtCurrentPrice
  else if hasExistingBid then
    Except.error TfError.DuplicateBid
  else
    Except.ok { bidder := bidder, event := eventId, amount := amount,
                status := BidStatus.Pending }

/-- Modelled from the spec: `awardTicket` (§4.4).  On success it atomically
increments `ticketsAwarded`, marks the bid `TicketAwarded`, and mints the
ticket. -/
def awardTicket (eventId : Nat) (ev : Event) (bid : Bid) (assetReference : Nat) :
    Except TfError (Event × Bid × Ticket) :=
  if bid.status ≠ BidStatus.Pending then
    Except.error TfError.InvalidBidState
  else if ev.ticketSupply ≤ ev.ticketsAwarded then
    Except.error TfError.EventSoldOut
  else if bid.event ≠ eventId then
    Except.error TfError.WrongEvent
  else
    Except.ok ({ ev with ticketsAwarded := ev.ticketsAwarded + 1 },
               { bid with status := BidStatus.TicketAwarded },
               { owner := bid.bidder, event := eventId, assetReference := assetReference })

/-- Modelled from the spec: `refundBid` (§4.5) — full refund for a Pending
bid, `max(0, amount − auctionClosePrice)` for a TicketAwarded bid on a
Finalized event, and `AlreadyRefunded` for a Refunded bid. -/
def refundBid (ev : Event) (bid : Bid) : Except TfError (Int × Bid) :=
  match bid.status with
  | BidStatus.Refunded => Except.error TfError.AlreadyRefunded
  | BidStatus.Pending => Except.ok (bid.amount, { bid with status := BidStatus.Refunded })
  | BidStatus.TicketAwarded =>
      if ev.status ≠ EventStatus.Finalized then
        Except.error TfError.EventNotFinalized
      else
        Except.ok (max 0 (bid.amount - ev.auctionClosePrice),
                   { bid with status := BidStatus.Refunded })

/-- Modelled from the spec: `finalize` (§4.2) with the documented time-gated
guard — only an Active event, and only once `now` has reached
`auctionEndTime`; the close price is stored permanently. -/
def finalize (ev : Event) (closePrice : Int) (now : Int) : Except TfError Event :=
  if ev.status ≠ EventStatus.Active then
    Except.error TfError.InvalidEventState
  else if now < ev.auctionEndTime then
    Except.error TfError.AuctionStillRunning
  else
    Except.ok { ev with status := EventStatus.Finalized, auctionClosePrice := closePrice }

/-! ### Deterministic address derivation (from `src/ticketfair-api.ts`) -/

/-- A derived program address, modelled as the data the source feeds to
`PublicKey.findProgramAddressSync`: the seed byte-strings and the program id.
The real derivation hashes these inputs; the claims only use that it is a
deterministic function of them. -/
structure PdaAddress where
  seeds : List (List Nat)
  programId : Nat
deriving DecidableEq, Repr

/-- Deterministic model of `PublicKey.findProgramAddressSync(seeds, programId)`. -/
def findProgramAddressSync (seeds : List (List Nat)) (programId : Nat) : PdaAddress :=
  { seeds := seeds, programId := programId }

/-- The byte string `Buffer.from("event")` used as the first seed. -/
def eventSeed : List Nat := [101, 118, 101, 110, 116]

/-- The parameters of `createAndActivateEvent` in `src/ticketfair-api.ts`
(lines 32–47) that feed event creation; the organizer identity is an abstract
key whose buffer is its singleton byte string. -/
structure CreateEventParams where
  organizer : Nat
  metadataUrl : String
  ticketSupply : Nat
  startPrice : Int
  endPrice : Int
  auctionStartTime : Int
  auctionEndTime : Int
deriving DecidableEq, Repr

/-- Translation of the event-PDA derivation in `createAndActivateEvent`
(`src/ticketfair-api.ts` lines 72–75): the seeds are exactly
`[Buffer.from("event"), organizerPubkey.toBuffer()]` — no other creation
parameter reaches the derivation.  `placeBid` (lines 123–126) re-derives the
same address from the fetched event's organizer. -/
def deriveEventPda (programId : Nat) (params : CreateEventParams) : PdaAddress :=
  findProgramAddressSync [eventSeed, [params.organizer]] programId

/-! ### Claim theorems for the pricing engine -/

/-- The event of the large failing inputs: prices fall from `2^54 + 7` to
`2^54 + 4` over the window `[0, 4]`.  `Number(2^54 + 7)` rounds to
`2^54 + 8` (the unit in the last place is 4 in this band), while
`2^54 + 4` is exactly representable. -/
def bigEvent : EventPricing :=
  { startPrice := 18014398509481991, endPrice := 18014398509481988,
    auctionStartTime := 0, auctionEndTime := 4 }

/-- C1.  The price that `calculateCurrentPrice` actually computes is not the
claimed exact-integer formula: at the event with `startPrice = 10`,
`endPrice = 0`, window `[0, 4]`, at `now = 1` (strictly inside the window,
with `startPrice ≥ endPrice` and `auctionEndTime > auctionStartTime`) the
binary64 model of the source returns 7 — the source applies `Math.floor` to
the whole expression, in doubles — while the spec formula
`startPrice − floor((startPrice − endPrice)·(now − start)/(end − start))`
gives `10 − ⌊10/4⌋ = 8`.  (At this input every intermediate double is
exactly representable.) -/
theorem calculateCurrentPriceFP_floor_misplacement :
    TicketfairApi.calculateCurrentPriceFP sepEvent 1 = 7 ∧
    specCurrentPrice sepEvent 1 = 8 := by
  decide

/-- C2.  The two evaluation sites of the price formula disagree: on the event
with `startPrice = 10`, `endPrice = 0`, window `[0, 4]`, at `now = 1` the
`src/ticketfair-api.ts` function returns 7 while the test-helper function
returns 8 (all intermediate double values at this input are exactly
representable, so the idealized embedding agrees with the JS computations). -/
theorem price_sites_diverge :
    TicketfairApi.calculateCurrentPrice sepEvent 1 = 7 ∧
    TestHelpers.calculateCurrentPrice sepEvent 1 = 8 := by
  decide

/-- C3.  The claimed bound `calculateCurrentPrice(event, now) ≤ startPrice`
fails on the source: on `bigEvent` (which satisfies
`startPrice ≥ endPrice` and `auctionEndTime > auctionStartTime`) at
`now = 1`, the binary64 model of the source returns `2^54 + 8`, one unit in
the last place above `startPrice = 2^54 + 7` — the `Number(...)` conversion
rounds the start price up before the interpolation. -/
theorem calculateCurrentPriceFP_exceeds_startPrice :
    bigEvent.endPrice ≤ bigEvent.startPrice ∧
    bigEvent.auctionStartTime < bigEvent.auctionEndTime ∧
    bigEvent.startPrice < TicketfairApi.calculateCurrentPriceFP bigEvent 1 := by
  decide

/-- C4.  The claimed monotonicity fails on the source: on `bigEvent`, with
`t1 = 0` and `t2 = 1` both inside `[auctionStartTime, auctionEndTime]`, the
binary64 model of the source returns the raw `startPrice = 2^54 + 7` at
`t1 = 0` (pre-window branch) but `2^54 + 8` at `t2 = 1` (double rounding in
the in-window branch) — the price increases. -/
theorem calculateCurrentPriceFP_not_antitone :
    bigEvent.auctionStartTime ≤ (0 : Int) ∧ (0 : Int) < (1 : Int) ∧
    (1 : Int) ≤ bigEvent.auctionEndTime ∧
    TicketfairApi.calculateCurrentPriceFP bigEvent 0 <
      TicketfairApi.calculateCurrentPriceFP bigEvent 1 := by
  decide


/-! ### Concrete fixtures for the settlement-core theorems -/

/-- A concrete Active event: supply 1, prices falling 10 → 0 over `[10, 20]`. -/
def activeEvent : Event :=
  { organizer := 1, metadataUrl := "m", ticketSupply := 1, ticketsAwarded := 0,
    startPrice := 10, endPrice := 0, auctionStartTime := 10, auctionEndTime := 20,
    auctionClosePrice := 0, status := EventStatus.Active }

/-- A concrete Active event whose single ticket has already been awarded. -/
def soldOutEvent : Event :=
  { activeEvent with ticketsAwarded := 1 }

/-- A concrete Finalized event with close price 3. -/
def finalizedEvent : Event :=
  { activeEvent with status := EventStatus.Finalized, auctionClosePrice := 3 }

/-- A concrete Pending bid of amount 5 on event address 7. -/
def pendingBid : Bid :=
  { bidder := 2, event := 7, amount := 5, status := BidStatus.Pending }

/-- A concrete TicketAwarded bid of amount 5 on event address 7. -/
def awardedBid : Bid :=
  { pendingBid with status := BidStatus.TicketAwarded }

/-- A concrete already-Refunded bid. -/
def refundedBid : Bid :=
  { pendingBid with status := BidStatus.Refunded }

lemma refundBid_awarded_eq (ev : Event) (bb be : Nat) (ba : Int) :
    refundBid ev { bidder := bb, event := be, amount := ba,
                   status := BidStatus.TicketAwarded } =
      if ev.status ≠ EventStatus.Finalized then
        Except.error TfError.EventNotFinalized
      else
        Except.ok (max 0 (ba - ev.auctionClosePrice),
          { bidder := bb, event := be, amount := ba, status := BidStatus.Refunded }) :=
  rfl

/-! ### Claim theorems for the settlement core -/

/-- C5, counterexample.  On the Active event `activeEvent` (auction window
`[10, 20]`) at `now = 5`, the bid amount 10 equals
`currentPrice(event, now)` (the pre-window price is `startPrice`), yet
`placeBid` does not succeed: it fails with `AuctionNotStarted`.  So, for an
Active event, success is not equivalent to `amount = currentPrice(event, now)`
alone. -/
theorem placeBid_iff_counterexample :
    activeEvent.status = EventStatus.Active ∧
    (10 : Int) = currentPrice activeEvent 5 ∧
    placeBid 7 activeEvent 2 10 5 false = Except.error TfError.AuctionNotStarted :=
  ⟨rfl, by decide, rfl⟩

/-- C5, amended.  For an Active event and a time inside the bidding window
(`auctionStartTime ≤ now < auctionEndTime`): a bid at any amount other than
`currentPrice(event, now)` fails with `BidNotAtCurrentPrice` (and so creates
no Bid); a bid at exactly the current price by a bidder with no existing bid
succeeds and creates the Pending Bid; and any successful bid was exactly at
the current price. -/
theorem placeBid_exact_price (eventId bidder : Nat) (ev : Event) (amount now : Int)
    (dup : Bool) (hA : ev.status = EventStatus.Active)
    (h1 : ev.auctionStartTime ≤ now) (h2 : now < ev.auctionEndTime) :
    (amount ≠ currentPrice ev now →
      placeBid eventId ev bidder amount now dup = Except.error TfError.BidNotAtCurrentPrice) ∧
    (amount = currentPrice ev now → dup = false →
      placeBid eventId ev bidder amount now dup =
        Except.ok { bidder := bidder, event := eventId, amount := amount,
                    status := BidStatus.Pending }) ∧
    (∀ b : Bid, placeBid eventId ev bidder amount now dup = Except.ok b →
      amount = currentPrice ev now) := by
  have g0 : ¬ (ev.status ≠ EventStatus.Active) := by simp [hA]
  simp only [placeBid, if_neg g0, if_neg (by omega : ¬ now < ev.auctionStartTime),
    if_neg (by omega : ¬ ev.auctionEndTime ≤ now)]
  refine ⟨fun hne => by rw [if_pos hne], fun heq hdup => ?_, fun b hb => ?_⟩
  · rw [if_neg (by simp [heq]), hdup]
    simp
  · by_contra hne
    rw [if_pos hne] at hb
    simp at hb

/-- C5, witness for the amended theorem: on `activeEvent` at `now = 15` the
current price is 5, and a first bid of exactly 5 succeeds with a Pending
Bid. -/
theorem placeBid_exact_price_witness :
    placeBid 7 activeEvent 2 5 15 false =
      Except.ok { bidder := 2, event := 7, amount := 5, status := BidStatus.Pending } :=
  (placeBid_exact_price 7 2 activeEvent 5 15 false (by decide) (by decide) (by decide)).2.1
    (by decide) rfl

/-- C6.  Award conservation: whenever `ticketsAwarded ≤ ticketSupply`, a
successful `awardTicket` increments the counter by exactly 1 and keeps it
within the supply; and on an event whose counter has reached the supply, an
award attempt on a Pending bid fails with `EventSoldOut` (returning no new
state, so the counter stays put). -/
theorem awardTicket_conservation (eventId : Nat) (ev : Event) (bid : Bid) (ref : Nat)
    (hinv : ev.ticketsAwarded ≤ ev.ticketSupply) :
    (∀ ev2 bid2 t, awardTicket eventId ev bid ref = Except.ok (ev2, bid2, t) →
      ev2.ticketsAwarded = ev.ticketsAwarded + 1 ∧
      ev2.ticketsAwarded ≤ ev2.ticketSupply) ∧
    (bid.status = BidStatus.Pending → ev.ticketsAwarded = ev.ticketSupply →
      awardTicket eventId ev bid ref = Except.error TfError.EventSoldOut) := by
  constructor
  · intro ev2 bid2 t h
    simp only [awardTicket] at h
    split_ifs at h with hs hc hw
    simp only [Except.ok.injEq, Prod.mk.injEq] at h
    obtain ⟨h1, -, -⟩ := h
    subst h1
    exact ⟨rfl, by show ev.ticketsAwarded + 1 ≤ ev.ticketSupply; omega⟩
  · intro hp hfull
    simp only [awardTicket, if_neg (by simp [hp] :
      ¬ (bid.status ≠ BidStatus.Pending)), if_pos (by omega : ev.ticketSupply ≤ ev.ticketsAwarded)]

/-- C6, witness: on `soldOutEvent` (supply 1, 1 already awarded) an award
attempt on the Pending bid fails with `EventSoldOut`. -/
theorem awardTicket_conservation_witness :
    awardTicket 7 soldOutEvent pendingBid 0 = Except.error TfError.EventSoldOut :=
  (awardTicket_conservation 7 soldOutEvent pendingBid 0 (by decide)).2 rfl rfl

/-- C7.  Refunding a TicketAwarded bid requires a Finalized event (failing
with `EventNotFinalized` otherwise); on a Finalized event it returns
`max(0, amount − auctionClosePrice)` — which is `amount − closePrice` when
`closePrice ≤ amount` and 0 when `amount ≤ closePrice` — and marks the bid
Refunded. -/
theorem refundBid_winning_partial_refund (ev : Event) (bid : Bid)
    (hb : bid.status = BidStatus.TicketAwarded) :
    (ev.status ≠ EventStatus.Finalized →
      refundBid ev bid = Except.error TfError.EventNotFinalized) ∧
    (ev.status = EventStatus.Finalized →
      refundBid ev bid =
        Except.ok (max 0 (bid.amount - ev.auctionClosePrice),
          { bid with status := BidStatus.Refunded }) ∧
      (ev.auctionClosePrice ≤ bid.amount →
        max 0 (bid.amount - ev.auctionClosePrice) = bid.amount - ev.auctionClosePrice) ∧
      (bid.amount ≤ ev.auctionClosePrice →
        max 0 (bid.amount - ev.auctionClosePrice) = 0)) := by
  obtain ⟨bb, be, ba, bs⟩ := bid
  cases bs with
  | Pending => exact BidStatus.noConfusion hb
  | Refunded => exact BidStatus.noConfusion hb
  | TicketAwarded =>
    refine ⟨fun h => ?_, fun h => ⟨?_, fun hle => ?_, fun hge => ?_⟩⟩
    · rw [refundBid_awarded_eq, if_pos h]
    · rw [refundBid_awarded_eq, if_neg (by simp [h])]
    · have hle2 : ev.auctionClosePrice ≤ ba := hle
      show max 0 (ba - ev.auctionClosePrice) = ba - ev.auctionClosePrice
      exact max_eq_right (by omega)
    · have hge2 : ba ≤ ev.auctionClosePrice := hge
      show max 0 (ba - ev.auctionClosePrice) = 0
      exact max_eq_left (by omega)

/-- C7, witness: on `finalizedEvent` (close price 3) the TicketAwarded bid of
amount 5 is refunded `max(0, 5 − 3) = 2` and marked Refunded. -/
theorem refundBid_winning_partial_refund_witness :
    refundBid finalizedEvent awardedBid =
      Except.ok (max 0 (awardedBid.amount - finalizedEvent.auctionClosePrice),
        { awardedBid with status := BidStatus.Refunded }) :=
  ((refundBid_winning_partial_refund finalizedEvent awardedBid rfl).2 rfl).1

/-- C8.  Refund idempotence: `refundBid` on an already-Refunded bid always
fails with `AlreadyRefunded` (the call is pure and returns no new state, so
any number of retries fails identically and the bid stays Refunded). -/
theorem refundBid_already_refunded (ev : Event) (bid : Bid)
    (hb : bid.status = BidStatus.Refunded) :
    refundBid ev bid = Except.error TfError.AlreadyRefunded := by
  obtain ⟨bb, be, ba, bs⟩ := bid
  cases bs with
  | Pending => exact BidStatus.noConfusion hb
  | TicketAwarded => exact BidStatus.noConfusion hb
  | Refunded => rfl

/-- C8, witness: a second refund of the concrete Refunded bid fails with
`AlreadyRefunded`. -/
theorem refundBid_already_refunded_witness :
    refundBid finalizedEvent refundedBid = Except.error TfError.AlreadyRefunded :=
  refundBid_already_refunded finalizedEvent refundedBid rfl

/-- C9.  Finalization is time-gated: on an Active event, `finalize` at any
time strictly before `auctionEndTime` fails with `AuctionStillRunning`
(returning no new state), succeeds once `now ≥ auctionEndTime` (storing the
close price), and every successful finalization happened at
`now ≥ auctionEndTime`. -/
theorem finalizeAuction_time_gated (ev : Event) (closePrice now : Int)
    (hA : ev.status = EventStatus.Active) :
    (now < ev.auctionEndTime →
      finalize ev closePrice now = Except.error TfError.AuctionStillRunning) ∧
    (ev.auctionEndTime ≤ now →
      finalize ev closePrice now =
        Except.ok { ev with status := EventStatus.Finalized,
                            auctionClosePrice := closePrice }) ∧
    (∀ ev2, finalize ev closePrice now = Except.ok ev2 → ev.auctionEndTime ≤ now) := by
  have g0 : ¬ (ev.status ≠ EventStatus.Active) := by simp [hA]
  simp only [finalize, if_neg g0]
  refine ⟨fun h => by rw [if_pos h], fun h => by rw [if_neg (by omega)], fun ev2 h => ?_⟩
  by_contra hlt
  rw [if_pos (by omega)] at h
  simp at h

/-- C9, witness: finalizing `activeEvent` (window ending at 20) at
`now = 15` fails with `AuctionStillRunning`. -/
theorem finalizeAuction_time_gated_witness :
    finalize activeEvent 3 15 = Except.error TfError.AuctionStillRunning :=
  (finalizeAuction_time_gated activeEvent 3 15 rfl).1 (by decide)

/-! ### Claim theorem for address derivation -/

/-- C10.  The event PDA derivation of `createAndActivateEvent`
(`src/ticketfair-api.ts` lines 72–75) feeds only the `"event"` literal and
the organizer key into `findProgramAddressSync`: two creations by the same
organizer derive the identical event address no matter how the metadata URL,
ticket supply, prices or auction window differ. -/
theorem eventPda_depends_only_on_organizer (programId : Nat) (p1 p2 : CreateEventParams)
    (h : p1.organizer = p2.organizer) :
    deriveEventPda programId p1 = deriveEventPda programId p2 := by
  simp [deriveEventPda, findProgramAddressSync, h]

/-- Two event creations by organizer 1 that differ in every non-organizer
parameter. -/
def paramsA : CreateEventParams :=
  { organizer := 1, metadataUrl := "https://a.example/e1.json", ticketSupply := 10,
    startPrice := 1000, endPrice := 100, auctionStartTime := 0, auctionEndTime := 3600 }

/-- A second creation by the same organizer with different metadata, supply,
prices and window. -/
def paramsB : CreateEventParams :=
  { organizer := 1, metadataUrl := "https://b.example/e2.json", ticketSupply := 25,
    startPrice := 5000, endPrice := 500, auctionStartTime := 100, auctionEndTime := 9999 }

/-- C10, witness: the two concrete creations `paramsA` and `paramsB` by
organizer 1 derive the same event PDA. -/
theorem eventPda_depends_only_on_organizer_witness :
    deriveEventPda 9 paramsA = deriveEventPda 9 paramsB :=
  eventPda_depends_only_on_organizer 9 paramsA paramsB rfl

end AnchorEscrow
